import Mathlib

/-!
Verification of the `notalib.date` module: a shallow embedding of its date
utilities (week extraction under two numbering modes, multi-format date
parsing, date normalization, year-month parsing) together with proofs of
the specified properties.
-/

/-- A calendar date, as `datetime.date`: a year, month and day. -/
structure Date where
  year : Nat
  month : Nat
  day : Nat
deriving DecidableEq

/-- Modelled from the spec: Gregorian leap-year rule used by `datetime`. -/
def isLeap (y : Nat) : Bool :=
  y % 4 == 0 && (y % 100 != 0 || y % 400 == 0)

/-- Modelled from the spec: number of days in month `m` of year `y`. -/
def daysInMonth (y m : Nat) : Nat :=
  if m = 2 then (if isLeap y then 29 else 28)
  else if m = 4 ∨ m = 6 ∨ m = 9 ∨ m = 11 then 30
  else 31

/-- Modelled from the spec: days of year `y` that precede month `m`. -/
def daysBeforeMonth (y m : Nat) : Nat :=
  (if 1 < m then 31 else 0) +
  (if 2 < m then (if isLeap y then 29 else 28) else 0) +
  (if 3 < m then 31 else 0) +
  (if 4 < m then 30 else 0) +
  (if 5 < m then 31 else 0) +
  (if 6 < m then 30 else 0) +
  (if 7 < m then 31 else 0) +
  (if 8 < m then 31 else 0) +
  (if 9 < m then 30 else 0) +
  (if 10 < m then 31 else 0) +
  (if 11 < m then 30 else 0)

/-- Day-of-year index of a date, 0-based (January 1st is day 0). -/
def dayOfYear0 (d : Date) : Nat :=
  daysBeforeMonth d.year d.month + (d.day - 1)

/-- Rata Die day number: day 1 is 0001-01-01 (a Monday) in the proleptic
Gregorian calendar, matching `datetime.date.toordinal`. -/
def rataDie (d : Date) : Nat :=
  365 * (d.year - 1) + (d.year - 1) / 4 - (d.year - 1) / 100 + (d.year - 1) / 400
    + daysBeforeMonth d.year d.month + d.day

/-- Weekday of a date with Monday = 0, ..., Sunday = 6,
matching `datetime.date.weekday`. -/
def mondayWeekday (d : Date) : Nat :=
  (rataDie d + 6) % 7

/-- Modelled from the spec: Python's `strftime` directive `%W` — week of the
year with Monday as the first day of the week; days of a new year before its
first Monday are in week 0. -/
def strftimeW (d : Date) : Nat :=
  (dayOfYear0 d + 7 - mondayWeekday d) / 7

/-- 0-based day-of-year offset of the first Monday of year `y`; a date
falls before the year's first Monday iff its `dayOfYear0` is below this. -/
def firstMondayOffset (y : Nat) : Nat :=
  (7 - mondayWeekday ⟨y, 1, 1⟩) % 7

/-- A date is valid when `datetime.date` accepts its components. -/
def Date.Valid (d : Date) : Prop :=
  1 ≤ d.year ∧ d.year ≤ 9999 ∧ 1 ≤ d.month ∧ d.month ≤ 12 ∧
    1 ≤ d.day ∧ d.day ≤ daysInMonth d.year d.month

instance (d : Date) : Decidable d.Valid := by
  unfold Date.Valid; infer_instance

/-- `Week` named tuple: a week number together with a year. -/
structure Week where
  week : Nat
  year : Nat
deriving DecidableEq

/-- `WeekNumbering` enumeration: the available week-extraction modes. -/
inductive WeekNumbering where
  | NORMAL
  | MATCH_YEAR
deriving DecidableEq

/-- A Python value passed as the `mode` argument of `get_week`: either a
member of the `WeekNumbering` enumeration or any other value. -/
inductive PyWeekMode where
  | member (m : WeekNumbering)
  | nonMember
deriving DecidableEq

/-- Errors surfaced by the module: `ValueError` (with its message),
`TypeError` and `NotImplementedError`. -/
inductive Err where
  | valueError (msg : String)
  | typeError
  | notImplementedError
deriving DecidableEq

/-- `MatchYearWeekExtractor.extract`: week number via `strftime('%W')`
paired with the date's own year. -/
def MatchYearWeekExtractor.extract (date_object : Date) : Week :=
  ⟨strftimeW date_object, date_object.year⟩

/-- `NormalWeekExtractor.extract`: as `MatchYearWeekExtractor`, but a raw
week number of 0 is replaced by the extraction for December 31 of the
previous year. -/
def NormalWeekExtractor.extract (date_object : Date) : Week :=
  let week := MatchYearWeekExtractor.extract date_object
  if week.week = 0 then
    MatchYearWeekExtractor.extract ⟨date_object.year - 1, 12, 31⟩
  else
    week

/-- `get_week`: dispatches on the mode; `TypeError` for a value outside the
enumeration, `NotImplementedError` for an unhandled enumeration member. -/
def get_week (date_object : Date) (mode : PyWeekMode := .member .NORMAL) :
    Except Err Week :=
  match mode with
  | .nonMember => .error .typeError
  | .member m =>
    if m = WeekNumbering.NORMAL then
      .ok (NormalWeekExtractor.extract date_object)
    else if m = WeekNumbering.MATCH_YEAR then
      .ok (MatchYearWeekExtractor.extract date_object)
    else
      .error .notImplementedError

/-- Result of a successful arrow parse: a date value. Missing components
default to 1 (modelled from the spec, which only exercises year, month and
day tokens). -/
structure Arrow where
  year : Nat
  month : Nat
  day : Nat
deriving DecidableEq

/-- Reads exactly `n` decimal digits (as character codes) from the front of
`cs`, accumulating their value onto `acc`. -/
def readFixed : Nat → Nat → List Nat → Option (Nat × List Nat)
  | 0, acc, cs => some (acc, cs)
  | _ + 1, _, [] => none
  | n + 1, acc, c :: cs =>
    if 48 ≤ c ∧ c ≤ 57 then readFixed n (acc * 10 + (c - 48)) cs else none

/-- Reads one or two decimal digits (as character codes) from the front of
`cs`, preferring two. -/
def readOneOrTwo : List Nat → Option (Nat × List Nat)
  | [] => none
  | [c] => if 48 ≤ c ∧ c ≤ 57 then some (c - 48, []) else none
  | c :: c2 :: cs =>
    if 48 ≤ c ∧ c ≤ 57 then
      if 48 ≤ c2 ∧ c2 ≤ 57 then some ((c - 48) * 10 + (c2 - 48), cs)
      else some (c - 48, c2 :: cs)
    else none

/-- Modelled from the spec: matches a format (as character codes: 89 = Y,
77 = M, 68 = D) against an input string. `YYYY` reads four digits, `MM` and
`DD` read two, `M` and `D` read one or two; any other character must match
literally; the whole input must be consumed. -/
def matchFormat : List Nat → List Nat → Arrow → Option Arrow
  | [], [], a => some a
  | [], _ :: _, _ => none
  | 89 :: 89 :: 89 :: 89 :: fs, cs, a =>
    match readFixed 4 0 cs with
    | some (y, cs2) => matchFormat fs cs2 { a with year := y }
    | none => none
  | 77 :: 77 :: fs, cs, a =>
    match readFixed 2 0 cs with
    | some (m, cs2) => matchFormat fs cs2 { a with month := m }
    | none => none
  | 77 :: fs, cs, a =>
    match readOneOrTwo cs with
    | some (m, cs2) => matchFormat fs cs2 { a with month := m }
    | none => none
  | 68 :: 68 :: fs, cs, a =>
    match readFixed 2 0 cs with
    | some (d, cs2) => matchFormat fs cs2 { a with day := d }
    | none => none
  | 68 :: fs, cs, a =>
    match readOneOrTwo cs with
    | some (d, cs2) => matchFormat fs cs2 { a with day := d }
    | none => none
  | _ :: _, [], _ => none
  | c :: fs, c2 :: cs, a => if c = c2 then matchFormat fs cs a else none

/-- Modelled from the spec: `arrow.get(s, fmt)` — parses `s` against the
single format `fmt`, also rejecting component values `datetime` would
reject; `none` stands for the `ValueError` the library raises. -/
def arrowGet (s fmt : String) : Option Arrow :=
  match matchFormat (fmt.toList.map Char.toNat) (s.toList.map Char.toNat) ⟨1, 1, 1⟩ with
  | none => none
  | some a =>
    if 1 ≤ a.year ∧ a.year ≤ 9999 ∧ 1 ≤ a.month ∧ a.month ≤ 12 ∧
        1 ≤ a.day ∧ a.day ≤ daysInMonth a.year a.month then
      some a
    else none

/-- Zero-pads a number to two digits. -/
def natTo2 (n : Nat) : String :=
  if n < 10 then "0" ++ toString n else toString n

/-- Zero-pads a number to four digits. -/
def natTo4 (n : Nat) : String :=
  if n < 10 then "000" ++ toString n
  else if n < 100 then "00" ++ toString n
  else if n < 1000 then "0" ++ toString n
  else toString n

/-- Modelled from the spec: renders a date through a format string (as
character codes), the same tokens as `matchFormat`. -/
def formatTokens : List Nat → Arrow → String
  | [], _ => ""
  | 89 :: 89 :: 89 :: 89 :: fs, a => natTo4 a.year ++ formatTokens fs a
  | 77 :: 77 :: fs, a => natTo2 a.month ++ formatTokens fs a
  | 77 :: fs, a => toString a.month ++ formatTokens fs a
  | 68 :: 68 :: fs, a => natTo2 a.day ++ formatTokens fs a
  | 68 :: fs, a => toString a.day ++ formatTokens fs a
  | c :: fs, a => String.singleton (Char.ofNat c) ++ formatTokens fs a

/-- Modelled from the spec: `Arrow.format` — reformats a parsed date
value with an output format. -/
def Arrow.format (a : Arrow) (fmt : String) : String :=
  formatTokens (fmt.toList.map Char.toNat) a

/-- The `DateFormats` argument type: a single format string or a sequence
of format strings. -/
inductive DateFormats where
  | single (f : String)
  | list (fs : List String)
deriving DecidableEq

/-- Modelled from the spec: `ensure_iterable` (from `notalib.array`, not
part of the sources here) wraps a single value into a one-element sequence
and leaves a sequence as it is. -/
def ensure_iterable : DateFormats → List String
  | .single f => [f]
  | .list fs => fs

/-- The loop of `parse_date`: tries each format in order, returning the
first successful parse; when every format fails, the `ValueError` that
`parse_date` raises after exhausting the loop. -/
def tryFormats (s : String) : List String → Except Err Arrow
  | [] =>
    .error (.valueError ("Could not parse date `" ++ s ++ "` with any of the specified formats"))
  | f :: rest =>
    match arrowGet s f with
    | some a => .ok a
    | none => tryFormats s rest

/-- `parse_date`: parses `s` against one format or a sequence of formats. -/
def parse_date (s : String) (format_or_formats : DateFormats) : Except Err Arrow :=
  tryFormats s (ensure_iterable format_or_formats)

/-- `parse_month`: parses a `'YYYY-M'` string into a (year, month) pair;
the parse failure of `arrow.get` is a `ValueError`. -/
def parse_month (yyyy_mm : String) : Except Err (Nat × Nat) :=
  match arrowGet yyyy_mm "YYYY-M" with
  | some a => .ok (a.year, a.month)
  | none => .error (.valueError ("Could not match format YYYY-M against " ++ yyyy_mm))

/-- `normalize_date`: converts a date string from one format to another;
`none` input with `allow_empty` yields `none`. A `none` input without
`allow_empty` reaches `arrow.get(None, fmt)`, whose non-`ValueError`
failure is modelled as a `TypeError`. -/
def normalize_date (s : Option String) (input_formats : DateFormats)
    (output_format : String) (allow_empty : Bool := true) :
    Except Err (Option String) :=
  if s = none ∧ allow_empty then .ok none
  else
    match s with
    | some str => (parse_date str input_formats).map (fun a => some (a.format output_format))
    | none => .error .typeError

instance {ε α : Type} [DecidableEq ε] [DecidableEq α] : DecidableEq (Except ε α) := fun a b =>
  match a, b with
  | .ok x, .ok y =>
    if h : x = y then isTrue (by rw [h]) else isFalse (by intro hc; cases hc; exact h rfl)
  | .error x, .error y =>
    if h : x = y then isTrue (by rw [h]) else isFalse (by intro hc; cases hc; exact h rfl)
  | .ok _, .error _ => isFalse (by intro hc; cases hc)
  | .error _, .ok _ => isFalse (by intro hc; cases hc)

lemma mondayWeekday_lt (d : Date) : mondayWeekday d < 7 :=
  Nat.mod_lt _ (by norm_num)

lemma dayOfYear0_le_365 (d : Date) (h : d.Valid) : dayOfYear0 d ≤ 365 := by
  obtain ⟨y, m, day⟩ := d
  obtain ⟨-, -, hm1, hm2, hd1, hd2⟩ := h
  simp only at hm1 hm2 hd1 hd2
  unfold daysInMonth at hd2
  unfold dayOfYear0 daysBeforeMonth
  simp only
  interval_cases m <;> cases hL : isLeap y <;> simp [hL] at hd2 ⊢ <;> omega

lemma rataDie_jan1_add (d : Date) (h : 1 ≤ d.day) :
    rataDie d = rataDie ⟨d.year, 1, 1⟩ + dayOfYear0 d := by
  obtain ⟨y, m, day⟩ := d
  simp only at h
  have h1 : daysBeforeMonth y 1 = 0 := by norm_num [daysBeforeMonth]
  unfold rataDie dayOfYear0
  simp only [h1]
  omega

lemma mondayWeekday_jan1_add (d : Date) (h : 1 ≤ d.day) :
    mondayWeekday d = (mondayWeekday ⟨d.year, 1, 1⟩ + dayOfYear0 d) % 7 := by
  unfold mondayWeekday
  rw [rataDie_jan1_add d h]
  generalize rataDie ⟨d.year, 1, 1⟩ = r
  generalize dayOfYear0 d = n
  omega

lemma strftimeW_le_53 (d : Date) (h : d.Valid) : strftimeW d ≤ 53 := by
  have h1 := dayOfYear0_le_365 d h
  have h2 := mondayWeekday_lt d
  unfold strftimeW
  omega

lemma strftimeW_eq_zero_iff (d : Date) (h : d.Valid) :
    strftimeW d = 0 ↔ dayOfYear0 d < firstMondayOffset d.year := by
  have hd1 : 1 ≤ d.day := h.2.2.2.2.1
  have hj := mondayWeekday_lt ⟨d.year, 1, 1⟩
  unfold strftimeW firstMondayOffset
  rw [mondayWeekday_jan1_add d hd1]
  generalize mondayWeekday ⟨d.year, 1, 1⟩ = mj at hj
  generalize dayOfYear0 d = n
  omega

lemma one_le_strftimeW_dec31 (y : Nat) : 1 ≤ strftimeW ⟨y, 12, 31⟩ := by
  have hm := mondayWeekday_lt ⟨y, 12, 31⟩
  have hB : 334 ≤ daysBeforeMonth y 12 := by
    unfold daysBeforeMonth
    cases isLeap y <;> norm_num
  unfold strftimeW dayOfYear0 at *
  simp only at *
  omega

/-- C1: for every valid date `d`, `get_week d NORMAL` (the
`NormalWeekExtractor`) returns a `Week` whose week number is at least 1,
never 0. -/
theorem normal_week_never_zero (d : Date) (h : d.Valid) (w : Week)
    (hw : get_week d (.member .NORMAL) = .ok w) : 1 ≤ w.week := by
  have hw2 : w = NormalWeekExtractor.extract d := by
    simp [get_week] at hw
    exact hw.symm
  subst hw2
  by_cases h0 : (MatchYearWeekExtractor.extract d).week = 0
  · simp [NormalWeekExtractor.extract, h0, MatchYearWeekExtractor.extract] at h0 ⊢
    simp [h0]
    exact one_le_strftimeW_dec31 _
  · simp [NormalWeekExtractor.extract, MatchYearWeekExtractor.extract] at h0 ⊢
    simp [h0]
    omega

/-- Witness for C1 at the valid date 2017-01-01, whose `NORMAL` extraction
is `Week 52 2016`. -/
theorem normal_week_never_zero_witness :
    Date.Valid ⟨2017, 1, 1⟩ ∧ 1 ≤ (Week.mk 52 2016).week :=
  ⟨by decide, normal_week_never_zero ⟨2017, 1, 1⟩ (by decide) ⟨52, 2016⟩ rfl⟩

/-- C2 counterexample: on 2018-01-01 (a Monday, hence raw week 1) the
claimed values `Week 0 2018` under `MATCH_YEAR` and `Week 53 2017` under
`NORMAL` are both wrong. -/
theorem get_week_20180101_claim_false :
    ¬(get_week ⟨2018, 1, 1⟩ (.member .MATCH_YEAR) = .ok ⟨0, 2018⟩ ∧
      get_week ⟨2018, 1, 1⟩ (.member .NORMAL) = .ok ⟨53, 2017⟩) := by
  decide

/-- C2 amended: for the input date 2018-01-01, `get_week` returns
`Week 1 2018` under `MATCH_YEAR`, and also `Week 1 2018` under `NORMAL`
(the previous-year fallback does not fire, the raw week being nonzero). -/
theorem get_week_20180101 :
    get_week ⟨2018, 1, 1⟩ (.member .MATCH_YEAR) = .ok ⟨1, 2018⟩ ∧
    get_week ⟨2018, 1, 1⟩ (.member .NORMAL) = .ok ⟨1, 2018⟩ := by
  decide

/-- C3: for every valid date `d`, `get_week d NORMAL` agrees with
`get_week d MATCH_YEAR` whenever the `MATCH_YEAR` week number is nonzero;
when it is 0, `get_week d NORMAL` is the `MATCH_YEAR` extraction of
December 31 of the previous year, so the year returned is `d.year - 1`. -/
theorem normal_vs_match_year (d : Date) (h : d.Valid) :
    ((MatchYearWeekExtractor.extract d).week ≠ 0 →
      get_week d (.member .NORMAL) = get_week d (.member .MATCH_YEAR)) ∧
    ((MatchYearWeekExtractor.extract d).week = 0 →
      get_week d (.member .NORMAL) =
        .ok (MatchYearWeekExtractor.extract ⟨d.year - 1, 12, 31⟩) ∧
      (NormalWeekExtractor.extract d).year = d.year - 1) := by
  constructor
  · intro h0
    simp [get_week, NormalWeekExtractor.extract, h0]
  · intro h0
    constructor
    · simp [get_week, NormalWeekExtractor.extract, h0]
    · simp [MatchYearWeekExtractor.extract] at h0
      simp [NormalWeekExtractor.extract, MatchYearWeekExtractor.extract, h0]

/-- Witness for C3: the nonzero branch at 2018-01-01 and the zero branch
at 2017-01-01. -/
theorem normal_vs_match_year_witness :
    (get_week ⟨2018, 1, 1⟩ (.member .NORMAL) =
      get_week ⟨2018, 1, 1⟩ (.member .MATCH_YEAR)) ∧
    (get_week ⟨2017, 1, 1⟩ (.member .NORMAL) =
      .ok (MatchYearWeekExtractor.extract ⟨2016, 12, 31⟩) ∧
     (NormalWeekExtractor.extract ⟨2017, 1, 1⟩).year = 2016) :=
  ⟨(normal_vs_match_year ⟨2018, 1, 1⟩ (by decide)).1 (by decide),
   (normal_vs_match_year ⟨2017, 1, 1⟩ (by decide)).2 (by decide)⟩

/-- C4: for every valid date `d`, `get_week d MATCH_YEAR` is
`Week (strftimeW d) d.year` where the `%W` week number is at most 53 and
is 0 exactly when `d` falls before its year's first Monday. -/
theorem match_year_week_characterization (d : Date) (h : d.Valid) :
    get_week d (.member .MATCH_YEAR) = .ok ⟨strftimeW d, d.year⟩ ∧
    strftimeW d ≤ 53 ∧
    (strftimeW d = 0 ↔ dayOfYear0 d < firstMondayOffset d.year) :=
  ⟨by simp [get_week, MatchYearWeekExtractor.extract],
   strftimeW_le_53 d h, strftimeW_eq_zero_iff d h⟩

/-- Witness for C4 at the valid date 2021-01-03, a Sunday in week 0. -/
theorem match_year_week_characterization_witness :
    get_week ⟨2021, 1, 3⟩ (.member .MATCH_YEAR) =
      .ok ⟨strftimeW ⟨2021, 1, 3⟩, 2021⟩ ∧
    strftimeW ⟨2021, 1, 3⟩ ≤ 53 ∧
    (strftimeW ⟨2021, 1, 3⟩ = 0 ↔
      dayOfYear0 ⟨2021, 1, 3⟩ < firstMondayOffset 2021) :=
  match_year_week_characterization ⟨2021, 1, 3⟩ (by decide)

lemma tryFormats_error_iff (s : String) (fs : List String) :
    tryFormats s fs =
      .error (.valueError ("Could not parse date `" ++ s ++ "` with any of the specified formats")) ↔
    ∀ f ∈ fs, arrowGet s f = none := by
  induction fs with
  | nil => simp [tryFormats]
  | cons f rest ih =>
    simp only [tryFormats]
    cases hf : arrowGet s f with
    | some a => simp [hf]
    | none => simp [hf, ih]

lemma tryFormats_first (s : String) (pre : List String) (f : String)
    (post : List String) (a : Arrow)
    (hpre : ∀ g ∈ pre, arrowGet s g = none) (hf : arrowGet s f = some a) :
    tryFormats s (pre ++ f :: post) = .ok a := by
  induction pre with
  | nil => simp [tryFormats, hf]
  | cons g rest ih =>
    have hg : arrowGet s g = none := hpre g (by simp)
    simp only [List.cons_append, tryFormats, hg]
    exact ih (fun x hx => hpre x (by simp [hx]))

/-- C5: `parse_date` on a non-empty list of formats returns the parse of
the first format that succeeds, and raises the no-format-matched
`ValueError` exactly when every format fails. -/
theorem parse_date_first_success (s : String) (formats : List String)
    (hne : formats ≠ []) :
    (parse_date s (.list formats) =
        .error (.valueError ("Could not parse date `" ++ s ++ "` with any of the specified formats")) ↔
      ∀ f ∈ formats, arrowGet s f = none) ∧
    (∀ pre f post a, formats = pre ++ f :: post →
      (∀ g ∈ pre, arrowGet s g = none) → arrowGet s f = some a →
      parse_date s (.list formats) = .ok a) := by
  constructor
  · simpa [parse_date, ensure_iterable] using tryFormats_error_iff s formats
  · intro pre f post a hsplit hpre hf
    subst hsplit
    simpa [parse_date, ensure_iterable] using tryFormats_first s pre f post a hpre hf

/-- Witness for C5: the date string 2021-05-01 parses with the single
format YYYY-MM-DD, and the string bad fails every format with the
no-format-matched error. -/
theorem parse_date_first_success_witness :
    (["YYYY-MM-DD"] : List String) ≠ [] ∧
    parse_date "2021-05-01" (.list ["YYYY-MM-DD"]) = .ok ⟨2021, 5, 1⟩ ∧
    parse_date "bad" (.list ["YYYY-MM-DD"]) =
      .error (.valueError ("Could not parse date `bad` with any of the specified formats")) :=
  ⟨by decide,
   (parse_date_first_success "2021-05-01" ["YYYY-MM-DD"] (by decide)).2
     [] "YYYY-MM-DD" [] ⟨2021, 5, 1⟩ rfl (by simp) rfl,
   (parse_date_first_success "bad" ["YYYY-MM-DD"] (by decide)).1.mpr (by decide)⟩

/-- C6: `normalize_date` maps an absent input to an absent output when
empties are allowed; a present input is parsed with `parse_date` and
reformatted through the output format, and every `parse_date` failure is
propagated unchanged. -/
theorem normalize_date_spec (input_formats : DateFormats) (output_format : String) :
    normalize_date none input_formats output_format true = .ok none ∧
    (∀ s ae, normalize_date (some s) input_formats output_format ae =
      (parse_date s input_formats).map (fun a => some (a.format output_format))) ∧
    (∀ s ae e, parse_date s input_formats = .error e →
      normalize_date (some s) input_formats output_format ae = .error e) := by
  refine ⟨rfl, fun s ae => ?_, fun s ae e he => ?_⟩
  · simp [normalize_date]
  · simp [normalize_date, he, Except.map]

/-- Witness for C6: a `none` input is allowed through, and the failing
input string bad produces exactly the `parse_date` error. -/
theorem normalize_date_spec_witness :
    normalize_date none (.list ["YYYY-MM-DD"]) "DD.MM.YYYY" true = .ok none ∧
    normalize_date (some "bad") (.list ["YYYY-MM-DD"]) "DD.MM.YYYY" true =
      .error (.valueError ("Could not parse date `bad` with any of the specified formats")) :=
  ⟨(normalize_date_spec (.list ["YYYY-MM-DD"]) "DD.MM.YYYY").1,
   (normalize_date_spec (.list ["YYYY-MM-DD"]) "DD.MM.YYYY").2.2 "bad" true _ rfl⟩

/-- C7: `get_week` raises `TypeError` exactly when the mode is not a
member of the `WeekNumbering` enumeration. -/
theorem get_week_type_error_iff (d : Date) (mode : PyWeekMode) :
    get_week d mode = .error .typeError ↔ mode = .nonMember := by
  cases mode with
  | nonMember => simp [get_week]
  | member m => cases m <;> simp [get_week]

/-- Witness for C7: a non-member mode value yields `TypeError`. -/
theorem get_week_type_error_iff_witness :
    get_week ⟨2020, 1, 1⟩ PyWeekMode.nonMember = .error .typeError :=
  (get_week_type_error_iff ⟨2020, 1, 1⟩ .nonMember).mpr rfl

/-- C8: for every date and every member of the (closed) `WeekNumbering`
enumeration, `get_week` returns a week successfully, so the final
`NotImplementedError` branch is unreachable. -/
theorem get_week_member_never_not_implemented (d : Date) (m : WeekNumbering) :
    ∃ w, get_week d (.member m) = .ok w := by
  cases m <;> exact ⟨_, rfl⟩

/-- C9: `parse_month` returns the (year, month) pair encoded by a string
matching the format YYYY-M, and a `ValueError` when the string does not
match. -/
theorem parse_month_spec (s : String) :
    (∀ a, arrowGet s "YYYY-M" = some a → parse_month s = .ok (a.year, a.month)) ∧
    (arrowGet s "YYYY-M" = none → ∃ msg, parse_month s = .error (.valueError msg)) := by
  constructor
  · intro a ha
    simp [parse_month, ha]
  · intro ha
    refine ⟨"Could not match format YYYY-M against " ++ s, ?_⟩
    simp [parse_month, ha]

/-- Witness for C9: the string 2021-5 parses to (2021, 5) and the string
bad fails with a `ValueError`. -/
theorem parse_month_spec_witness :
    parse_month "2021-5" = .ok (2021, 5) ∧
    ∃ msg, parse_month "bad" = .error (.valueError msg) :=
  ⟨(parse_month_spec "2021-5").1 ⟨2021, 5, 1⟩ rfl, (parse_month_spec "bad").2 rfl⟩

/-- C10: calling `get_week` without a mode uses the default mode
`WeekNumbering.NORMAL`. -/
theorem get_week_default_is_normal (d : Date) :
    get_week d = get_week d (.member .NORMAL) :=
  rfl
